import Mathlib

/-!
# Verification of the Micro Business ROI Forecast model (`src/app.py`)

Shallow embedding of the computational core of `app.py`: the five scalar
inputs collected by the sidebar widgets, the derived summary scalars
(lines 31-38) and the yearly projection table (lines 57-61).

Python integers are arbitrary precision, so money amounts are `ℤ` and the
year count is `ℕ`.  Python's true division `/` on these values is exact
rational division in every claim we check, so division is embedded into `ℚ`.
List indexing `xs[i]` in the comprehensions of lines 60-61 is embedded as
`List.getD i 0`; the indices are always in bounds (both lists have length
`resale_year`), so the default is never consulted.
-/

/-- The five scalar inputs read from the sidebar widgets
(`app.py` lines 24-28). -/
structure Inputs where
  num_businesses : ℤ
  purchase_price : ℤ
  annual_cost    : ℤ
  resale_value   : ℤ
  resale_year    : ℕ

namespace App

variable (inp : Inputs)

/-- `total_years = resale_year` (line 31). -/
def total_years : ℕ := inp.resale_year

/-- `initial_investment = num_businesses * purchase_price` (line 32). -/
def initial_investment : ℤ := inp.num_businesses * inp.purchase_price

/-- `total_annual_cost = annual_cost * total_years * num_businesses` (line 33). -/
def total_annual_cost : ℤ := inp.annual_cost * (total_years inp : ℤ) * inp.num_businesses

/-- `total_cost = initial_investment + total_annual_cost` (line 34). -/
def total_cost : ℤ := initial_investment inp + total_annual_cost inp

/-- `total_revenue = resale_value * num_businesses` (line 35). -/
def total_revenue : ℤ := inp.resale_value * inp.num_businesses

/-- `net_profit = total_revenue - total_cost` (line 36). -/
def net_profit : ℤ := total_revenue inp - total_cost inp

/-- `roi = (net_profit / total_cost) * 100` (line 37); true division, so `ℚ`. -/
def roi : ℚ := ((net_profit inp : ℚ) / (total_cost inp : ℚ)) * 100

/-- `roi_per_business` (line 38): per-unit ROI with denominator
`purchase_price + annual_cost * resale_year`. -/
def roi_per_business : ℚ :=
  (((inp.resale_value : ℚ) - ((inp.purchase_price : ℚ) + (inp.annual_cost : ℚ) * (inp.resale_year : ℚ)))
    / ((inp.purchase_price : ℚ) + (inp.annual_cost : ℚ) * (inp.resale_year : ℚ))) * 100

/-- `years = list(range(1, resale_year + 1))` (line 57). -/
def years : List ℕ := List.range' 1 inp.resale_year

/-- `cumulative_costs = [initial_investment + (i * annual_cost * num_businesses) for i in years]`
(line 58). -/
def cumulative_costs : List ℤ :=
  (years inp).map (fun (i : ℕ) => initial_investment inp + ((i : ℤ) * inp.annual_cost * inp.num_businesses))

/-- `revenue = [0 if i < resale_year else total_revenue for i in years]` (line 59). -/
def revenue : List ℤ :=
  (years inp).map (fun i => if i < inp.resale_year then 0 else total_revenue inp)

/-- `profit = [revenue[i] - cumulative_costs[i] for i in range(len(years))]` (line 60). -/
def profit : List ℤ :=
  (List.range (years inp).length).map
    (fun i => (revenue inp).getD i 0 - (cumulative_costs inp).getD i 0)

/-- `roi_over_time = [(profit[i] / cumulative_costs[i]) * 100 for i in range(len(years))]`
(line 61); true division, so `ℚ`. -/
def roi_over_time : List ℚ :=
  (List.range (years inp).length).map
    (fun i => (((profit inp).getD i 0 : ℚ) / ((cumulative_costs inp).getD i 0 : ℚ)) * 100)

/-- The spec's validity constraint (§3, §4.1): all five inputs positive. -/
def ValidInputs : Prop :=
  0 < inp.num_businesses ∧ 0 < inp.purchase_price ∧ 0 < inp.annual_cost ∧
    0 < inp.resale_value ∧ 0 < inp.resale_year

instance : DecidablePred ValidInputs := fun inp => by
  unfold ValidInputs; infer_instance

end App

section ListLemmas

/-- The years list has exactly `resale_year` entries. -/
theorem App.years_length (inp : Inputs) : (App.years inp).length = inp.resale_year := by
  simp [App.years]

/-- The `cumulative_costs` list has exactly `resale_year` entries. -/
theorem App.cumulative_costs_length (inp : Inputs) :
    (App.cumulative_costs inp).length = inp.resale_year := by
  simp [App.cumulative_costs, App.years]

/-- The `revenue` list has exactly `resale_year` entries. -/
theorem App.revenue_length (inp : Inputs) :
    (App.revenue inp).length = inp.resale_year := by
  simp [App.revenue, App.years]

/-- The `profit` list has exactly `resale_year` entries. -/
theorem App.profit_length (inp : Inputs) :
    (App.profit inp).length = inp.resale_year := by
  simp [App.profit, App.years]

/-- The `roi_over_time` list has exactly `resale_year` entries. -/
theorem App.roi_over_time_length (inp : Inputs) :
    (App.roi_over_time inp).length = inp.resale_year := by
  simp [App.roi_over_time, App.years]

/-- Entry `k` of the years list is the year `1 + k`. -/
theorem App.years_getD (inp : Inputs) (k : ℕ) (hk : k < inp.resale_year) :
    (App.years inp).getD k 0 = 1 + k := by
  have hk' : k < (App.years inp).length := by rw [App.years_length]; exact hk
  rw [List.getD_eq_getElem _ _ hk']
  exact List.getElem_range'_1 k (by simpa [App.years] using hk')

/-- Closed form of entry `k` of `cumulative_costs`: the cost through year `1 + k`. -/
theorem App.cumulative_costs_getD (inp : Inputs) (k : ℕ) (hk : k < inp.resale_year) :
    (App.cumulative_costs inp).getD k 0 =
      App.initial_investment inp + ((1 + k : ℕ) : ℤ) * inp.annual_cost * inp.num_businesses := by
  have hk' : k < (App.cumulative_costs inp).length := by
    rw [App.cumulative_costs_length]; exact hk
  rw [List.getD_eq_getElem _ _ hk']
  unfold App.cumulative_costs App.years
  rw [List.getElem_map, List.getElem_range'_1]

/-- Closed form of entry `k` of `revenue`. -/
theorem App.revenue_getD (inp : Inputs) (k : ℕ) (hk : k < inp.resale_year) :
    (App.revenue inp).getD k 0 =
      if 1 + k < inp.resale_year then 0 else App.total_revenue inp := by
  have hk' : k < (App.revenue inp).length := by rw [App.revenue_length]; exact hk
  rw [List.getD_eq_getElem _ _ hk']
  unfold App.revenue App.years
  rw [List.getElem_map, List.getElem_range'_1]

/-- Closed form of entry `k` of `profit`. -/
theorem App.profit_getD (inp : Inputs) (k : ℕ) (hk : k < inp.resale_year) :
    (App.profit inp).getD k 0 =
      (App.revenue inp).getD k 0 - (App.cumulative_costs inp).getD k 0 := by
  have hk' : k < (App.profit inp).length := by rw [App.profit_length]; exact hk
  rw [List.getD_eq_getElem _ _ hk']
  unfold App.profit
  rw [List.getElem_map, List.getElem_range]

/-- Closed form of entry `k` of `roi_over_time`. -/
theorem App.roi_over_time_getD (inp : Inputs) (k : ℕ) (hk : k < inp.resale_year) :
    (App.roi_over_time inp).getD k 0 =
      (((App.profit inp).getD k 0 : ℚ) / ((App.cumulative_costs inp).getD k 0 : ℚ)) * 100 := by
  have hk' : k < (App.roi_over_time inp).length := by
    rw [App.roi_over_time_length]; exact hk
  rw [List.getD_eq_getElem _ _ hk']
  unfold App.roi_over_time
  rw [List.getElem_map, List.getElem_range]

end ListLemmas

/-- **C1.** For every input, the summary scalars satisfy
`total_cost = initial_investment + annual_cost * resale_year * business_count`,
with `initial_investment = business_count * purchase_price` and
`total_revenue = resale_value * business_count`, exactly (integer arithmetic);
in particular this holds for every valid input. -/
theorem C1_total_cost_formula (inp : Inputs) :
    App.total_cost inp =
        App.initial_investment inp + inp.annual_cost * (inp.resale_year : ℤ) * inp.num_businesses ∧
      App.initial_investment inp = inp.num_businesses * inp.purchase_price ∧
      App.total_revenue inp = inp.resale_value * inp.num_businesses :=
  ⟨rfl, rfl, rfl⟩

/-- **C2.** For every input, `net_profit = total_revenue - total_cost` exactly, and
`roi = (net_profit / total_cost) * 100`, exactly in rational arithmetic (hence a
fortiori within floating-point tolerance); in particular for every valid input. -/
theorem C2_net_profit_roi (inp : Inputs) :
    App.net_profit inp = App.total_revenue inp - App.total_cost inp ∧
      App.roi inp = ((App.net_profit inp : ℚ) / (App.total_cost inp : ℚ)) * 100 :=
  ⟨rfl, rfl⟩

/-- **C3 counterexample.** The claim says that for `resale_year = 0` the model raises
an `InvalidInput` error and produces no summary scalars and no yearly table.  The
code (`app.py`, which contains no validation and no raise statement) instead
computes all summary scalars and an empty yearly table at
`business_count = 10, purchase_price = 99, annual_cost = 50, resale_value = 10000,
resale_year = 0`: `total_cost = 990`, `net_profit = 99010`, `roi = 990100/99`,
and the yearly table is the empty list — no error of any kind occurs. -/
theorem C3_counterexample :
    App.total_cost ⟨10, 99, 50, 10000, 0⟩ = 990 ∧
      App.net_profit ⟨10, 99, 50, 10000, 0⟩ = 99010 ∧
      App.roi ⟨10, 99, 50, 10000, 0⟩ = 990100 / 99 ∧
      App.years ⟨10, 99, 50, 10000, 0⟩ = [] ∧
      App.cumulative_costs ⟨10, 99, 50, 10000, 0⟩ = [] := by
  refine ⟨rfl, rfl, ?_, rfl, rfl⟩
  norm_num [App.roi, App.net_profit, App.total_revenue, App.total_cost,
    App.initial_investment, App.total_annual_cost, App.total_years]

/-- **C3 amended.** The code performs no input validation and raises no error.
What is true: whenever `business_count` and `purchase_price` are positive and
`annual_cost` is non-negative, both denominators — `total_cost` and the
per-business denominator `purchase_price + annual_cost * resale_year` — are
strictly positive, so no division by zero occurs (in particular for every
valid input, including the widget-reachable ones); at `resale_year = 0` the
code still produces the full summary and an empty yearly table. -/
theorem C3_amended_no_div_by_zero (inp : Inputs)
    (hnb : 0 < inp.num_businesses) (hpp : 0 < inp.purchase_price)
    (hac : 0 ≤ inp.annual_cost) :
    0 < App.total_cost inp ∧
      0 < inp.purchase_price + inp.annual_cost * (inp.resale_year : ℤ) := by
  have hry : (0 : ℤ) ≤ (inp.resale_year : ℤ) := Int.natCast_nonneg _
  constructor
  · unfold App.total_cost App.initial_investment App.total_annual_cost App.total_years
    have h1 : 0 < inp.num_businesses * inp.purchase_price := mul_pos hnb hpp
    have h2 : 0 ≤ inp.annual_cost * (inp.resale_year : ℤ) * inp.num_businesses :=
      mul_nonneg (mul_nonneg hac hry) hnb.le
    linarith
  · have h2 : 0 ≤ inp.annual_cost * (inp.resale_year : ℤ) := mul_nonneg hac hry
    linarith

/-- Witness for C3 amended: concrete valid input with positive denominators. -/
theorem C3_amended_no_div_by_zero_witness :
    0 < App.total_cost ⟨10, 99, 50, 10000, 10⟩ ∧
      0 < (99 : ℤ) + 50 * ((10 : ℕ) : ℤ) :=
  C3_amended_no_div_by_zero ⟨10, 99, 50, 10000, 10⟩ (by decide) (by decide) (by decide)

/-- **C4.** For every input with at least one year, the yearly table recognises
revenue only at the lump-sum exit: every row whose year `i` satisfies
`i < resale_year` has revenue `0` (row for year `i` sits at index `i - 1`), and
the final row (year `i = resale_year`) has revenue `total_revenue`. -/
theorem C4_lump_sum_exit (inp : Inputs) (h : 0 < inp.resale_year) :
    (∀ i : ℕ, 1 ≤ i → i < inp.resale_year → (App.revenue inp).getD (i - 1) 0 = 0) ∧
      (App.revenue inp).getD (inp.resale_year - 1) 0 = App.total_revenue inp := by
  constructor
  · intro i h1 h2
    rw [App.revenue_getD inp (i - 1) (by omega)]
    have hlt : 1 + (i - 1) < inp.resale_year := by omega
    simp [hlt]
  · rw [App.revenue_getD inp (inp.resale_year - 1) (by omega)]
    have hnlt : ¬(1 + (inp.resale_year - 1) < inp.resale_year) := by omega
    simp [hnlt]

/-- Witness for C4 at `resale_year = 3`: rows 1 and 2 have revenue 0,
row 3 has revenue `total_revenue = 100000`. -/
theorem C4_lump_sum_exit_witness :
    (0 : ℕ) < 3 ∧ (App.revenue ⟨10, 99, 50, 10000, 3⟩).getD 0 0 = 0 ∧
      (App.revenue ⟨10, 99, 50, 10000, 3⟩).getD 2 0 = 100000 := by
  have h := C4_lump_sum_exit ⟨10, 99, 50, 10000, 3⟩ (by decide)
  exact ⟨by decide, by simpa using h.1 1 (by decide) (by decide), by simpa using h.2⟩

/-- **C5.** For every input, the yearly table has exactly `resale_year` rows, the
`Year` column is the contiguous sequence `1, 2, ..., resale_year`, and every row
is a pure function of the five inputs and its own index: each column entry at
index `k` equals a closed form in the inputs and `k` alone, with no reference to
any other row. -/
theorem C5_table_shape (inp : Inputs) :
    (App.years inp).length = inp.resale_year ∧
      (App.cumulative_costs inp).length = inp.resale_year ∧
      (App.revenue inp).length = inp.resale_year ∧
      (App.profit inp).length = inp.resale_year ∧
      (App.roi_over_time inp).length = inp.resale_year ∧
      (∀ k : ℕ, k < inp.resale_year →
        (App.years inp).getD k 0 = 1 + k ∧
        (App.cumulative_costs inp).getD k 0 =
          App.initial_investment inp + ((1 + k : ℕ) : ℤ) * inp.annual_cost * inp.num_businesses ∧
        (App.revenue inp).getD k 0 =
          (if 1 + k < inp.resale_year then 0 else App.total_revenue inp) ∧
        (App.profit inp).getD k 0 =
          (if 1 + k < inp.resale_year then 0 else App.total_revenue inp) -
            (App.initial_investment inp + ((1 + k : ℕ) : ℤ) * inp.annual_cost * inp.num_businesses) ∧
        (App.roi_over_time inp).getD k 0 =
          ((((if 1 + k < inp.resale_year then 0 else App.total_revenue inp) -
              (App.initial_investment inp +
                ((1 + k : ℕ) : ℤ) * inp.annual_cost * inp.num_businesses) : ℤ) : ℚ) /
            ((App.initial_investment inp +
                ((1 + k : ℕ) : ℤ) * inp.annual_cost * inp.num_businesses : ℤ) : ℚ)) * 100) := by
  refine ⟨App.years_length inp, App.cumulative_costs_length inp, App.revenue_length inp,
    App.profit_length inp, App.roi_over_time_length inp, ?_⟩
  intro k hk
  have hcc := App.cumulative_costs_getD inp k hk
  have hrev := App.revenue_getD inp k hk
  have hpr : (App.profit inp).getD k 0 =
      (if 1 + k < inp.resale_year then 0 else App.total_revenue inp) -
        (App.initial_investment inp + ((1 + k : ℕ) : ℤ) * inp.annual_cost * inp.num_businesses) := by
    rw [App.profit_getD inp k hk, hrev, hcc]
  refine ⟨App.years_getD inp k hk, hcc, hrev, hpr, ?_⟩
  rw [App.roi_over_time_getD inp k hk, hpr, hcc]

/-- Witness for C5 at `resale_year = 3`: three rows, years `[1, 2, 3]`, and the
row formulas evaluated at index 0. -/
theorem C5_table_shape_witness :
    (App.years ⟨10, 99, 50, 10000, 3⟩).length = 3 ∧
      (App.years ⟨10, 99, 50, 10000, 3⟩).getD 0 0 = 1 ∧
      (App.cumulative_costs ⟨10, 99, 50, 10000, 3⟩).getD 0 0 = 990 + 1 * 50 * 10 := by
  have h := C5_table_shape ⟨10, 99, 50, 10000, 3⟩
  have h0 := h.2.2.2.2.2 0 (by decide)
  exact ⟨h.1, by simpa using h0.1, by simpa using h0.2.1⟩

/-- **C6.** For every input and every year `i` with `1 ≤ i ≤ resale_year`, the
table row at index `i - 1` satisfies
`cumulative_cost = initial_investment + i * annual_cost * business_count`,
`net_profit = revenue - cumulative_cost`, and
`roi_percent = net_profit / cumulative_cost * 100` (exact rational arithmetic). -/
theorem C6_row_formulas (inp : Inputs) (i : ℕ) (h1 : 1 ≤ i) (h2 : i ≤ inp.resale_year) :
    (App.cumulative_costs inp).getD (i - 1) 0 =
        App.initial_investment inp + (i : ℤ) * inp.annual_cost * inp.num_businesses ∧
      (App.profit inp).getD (i - 1) 0 =
        (App.revenue inp).getD (i - 1) 0 - (App.cumulative_costs inp).getD (i - 1) 0 ∧
      (App.roi_over_time inp).getD (i - 1) 0 =
        (((App.profit inp).getD (i - 1) 0 : ℚ) /
          ((App.cumulative_costs inp).getD (i - 1) 0 : ℚ)) * 100 := by
  have hk : i - 1 < inp.resale_year := by omega
  have hi : 1 + (i - 1) = i := by omega
  refine ⟨?_, App.profit_getD inp (i - 1) hk, App.roi_over_time_getD inp (i - 1) hk⟩
  rw [App.cumulative_costs_getD inp (i - 1) hk, hi]

/-- Witness for C6 at year `i = 2` of the `resale_year = 3` scenario. -/
theorem C6_row_formulas_witness :
    (1 : ℕ) ≤ 2 ∧ (2 : ℕ) ≤ 3 ∧
      (App.cumulative_costs ⟨10, 99, 50, 10000, 3⟩).getD 1 0 = 990 + 2 * 50 * 10 := by
  have h := C6_row_formulas ⟨10, 99, 50, 10000, 3⟩ 2 (by decide) (by decide)
  exact ⟨by decide, by decide, by simpa using h.1⟩

/-- **C7.** Whenever `annual_cost * business_count > 0`, the `cumulative_cost`
column is strictly increasing across consecutive rows: the entry at index `k`
is less than the entry at index `k + 1` for every in-range pair of rows. -/
theorem C7_cumulative_strict_mono (inp : Inputs)
    (hpos : 0 < inp.annual_cost * inp.num_businesses)
    (k : ℕ) (hk : k + 1 < inp.resale_year) :
    (App.cumulative_costs inp).getD k 0 < (App.cumulative_costs inp).getD (k + 1) 0 := by
  rw [App.cumulative_costs_getD inp k (by omega), App.cumulative_costs_getD inp (k + 1) hk]
  have hlt : ((1 + k : ℕ) : ℤ) < ((1 + (k + 1) : ℕ) : ℤ) := by push_cast; omega
  nlinarith [mul_lt_mul_of_pos_right hlt hpos]

/-- Witness for C7: rows 1 and 2 of the `resale_year = 3` scenario. -/
theorem C7_cumulative_strict_mono_witness :
    (0 : ℤ) < 50 * 10 ∧ (0 : ℕ) + 1 < 3 ∧
      (App.cumulative_costs ⟨10, 99, 50, 10000, 3⟩).getD 0 0 <
        (App.cumulative_costs ⟨10, 99, 50, 10000, 3⟩).getD 1 0 :=
  ⟨by decide, by decide,
    C7_cumulative_strict_mono ⟨10, 99, 50, 10000, 3⟩ (by decide) 0 (by decide)⟩

/-- **C8 counterexample.** In the concrete scenario
`business_count = 10, purchase_price = 99, annual_cost = 50, resale_value = 10000,
resale_year = 10`, the claim states `roi_percent ≈ 1569.78`.  The code computes
`roi = 94010 / 5990 * 100 = 940100/599 ≈ 1569.4491`, which is more than `0.3`
below `1569.78` (and is displayed as `1569.45` under two-decimal formatting),
so the claimed approximate value is wrong. -/
theorem C8_counterexample :
    App.roi ⟨10, 99, 50, 10000, 10⟩ = 940100 / 599 ∧
      (156978 / 100 : ℚ) - App.roi ⟨10, 99, 50, 10000, 10⟩ > 3 / 10 := by
  have h : App.roi ⟨10, 99, 50, 10000, 10⟩ = 940100 / 599 := by
    norm_num [App.roi, App.net_profit, App.total_revenue, App.total_cost,
      App.initial_investment, App.total_annual_cost, App.total_years]
  refine ⟨h, ?_⟩
  rw [h]
  norm_num

/-- **C8 amended.** In the scenario
`business_count = 10, purchase_price = 99, annual_cost = 50, resale_value = 10000,
resale_year = 10` the code produces `initial_investment = 990`,
`total_annual_cost = 5000`, `total_cost = 5990`, `total_revenue = 100000`,
`net_profit = 94010`, and `roi = roi_per_business = 940100/599 ≈ 1569.45`
(both strictly between `1569.44` and `1569.45`, so they display as `1569.45`,
not `1569.78`). -/
theorem C8_concrete_scenario :
    App.initial_investment ⟨10, 99, 50, 10000, 10⟩ = 990 ∧
      App.total_annual_cost ⟨10, 99, 50, 10000, 10⟩ = 5000 ∧
      App.total_cost ⟨10, 99, 50, 10000, 10⟩ = 5990 ∧
      App.total_revenue ⟨10, 99, 50, 10000, 10⟩ = 100000 ∧
      App.net_profit ⟨10, 99, 50, 10000, 10⟩ = 94010 ∧
      App.roi ⟨10, 99, 50, 10000, 10⟩ = 940100 / 599 ∧
      App.roi_per_business ⟨10, 99, 50, 10000, 10⟩ = 940100 / 599 ∧
      (156944 / 100 : ℚ) < App.roi ⟨10, 99, 50, 10000, 10⟩ ∧
      App.roi ⟨10, 99, 50, 10000, 10⟩ < (156945 / 100 : ℚ) := by
  have h : App.roi ⟨10, 99, 50, 10000, 10⟩ = 940100 / 599 := by
    norm_num [App.roi, App.net_profit, App.total_revenue, App.total_cost,
      App.initial_investment, App.total_annual_cost, App.total_years]
  refine ⟨rfl, rfl, rfl, rfl, rfl, h, ?_, ?_, ?_⟩
  · norm_num [App.roi_per_business]
  · rw [h]; norm_num
  · rw [h]; norm_num

/-- **C9.** For every valid input, the summary `roi` and the per-unit
`roi_per_business` are the same rational number: `total_cost` factors as
`business_count * (purchase_price + annual_cost * resale_year)` and
`total_revenue` as `business_count * resale_value`, so the common factor
`business_count` cancels exactly. -/
theorem C9_roi_eq_roi_per_business (inp : Inputs) (h : App.ValidInputs inp) :
    App.roi inp = App.roi_per_business inp := by
  obtain ⟨hnb, hpp, hac, -, -⟩ := h
  have hry : (0 : ℚ) ≤ (inp.resale_year : ℚ) := by positivity
  have hnbQ : (0 : ℚ) < (inp.num_businesses : ℚ) := by exact_mod_cast hnb
  have hppQ : (0 : ℚ) < (inp.purchase_price : ℚ) := by exact_mod_cast hpp
  have hacQ : (0 : ℚ) < (inp.annual_cost : ℚ) := by exact_mod_cast hac
  have hD : (0 : ℚ) < (inp.purchase_price : ℚ) + (inp.annual_cost : ℚ) * (inp.resale_year : ℚ) := by
    have : (0 : ℚ) ≤ (inp.annual_cost : ℚ) * (inp.resale_year : ℚ) := by positivity
    linarith
  have hT : ((App.total_cost inp : ℤ) : ℚ) =
      (inp.num_businesses : ℚ) *
        ((inp.purchase_price : ℚ) + (inp.annual_cost : ℚ) * (inp.resale_year : ℚ)) := by
    unfold App.total_cost App.initial_investment App.total_annual_cost App.total_years
    push_cast
    ring
  have hTpos : (0 : ℚ) < ((App.total_cost inp : ℤ) : ℚ) := by
    rw [hT]; positivity
  unfold App.roi App.roi_per_business App.net_profit App.total_revenue
  push_cast
  rw [hT]
  rw [div_mul_eq_mul_div, div_mul_eq_mul_div, div_eq_div_iff (by positivity) hD.ne']
  ring

/-- Witness for C9 at the concrete valid input of scenario 1: both ROI figures
equal `940100/599`. -/
theorem C9_roi_eq_roi_per_business_witness :
    App.ValidInputs ⟨10, 99, 50, 10000, 10⟩ ∧
      App.roi ⟨10, 99, 50, 10000, 10⟩ = App.roi_per_business ⟨10, 99, 50, 10000, 10⟩ :=
  ⟨by decide, C9_roi_eq_roi_per_business ⟨10, 99, 50, 10000, 10⟩ (by decide)⟩

/-- **C10.** For every input with at least one year, the final table row agrees
exactly with the summary: `cumulative_cost` at the last row equals `total_cost`,
hence its `net_profit` equals the summary `net_profit` and its `roi_percent`
equals the summary `roi`, all in exact (rational) arithmetic — the two formulas
the spec flags as possibly disagreeing at the boundary year coincide. -/
theorem C10_boundary_agreement (inp : Inputs) (h : 0 < inp.resale_year) :
    (App.cumulative_costs inp).getD (inp.resale_year - 1) 0 = App.total_cost inp ∧
      (App.profit inp).getD (inp.resale_year - 1) 0 = App.net_profit inp ∧
      (App.roi_over_time inp).getD (inp.resale_year - 1) 0 = App.roi inp := by
  have hk : inp.resale_year - 1 < inp.resale_year := by omega
  have hi : 1 + (inp.resale_year - 1) = inp.resale_year := by omega
  have hcc : (App.cumulative_costs inp).getD (inp.resale_year - 1) 0 = App.total_cost inp := by
    rw [App.cumulative_costs_getD inp _ hk, hi]
    unfold App.total_cost App.initial_investment App.total_annual_cost App.total_years
    ring
  have hrev : (App.revenue inp).getD (inp.resale_year - 1) 0 = App.total_revenue inp := by
    rw [App.revenue_getD inp _ hk]
    have hnlt : ¬(1 + (inp.resale_year - 1) < inp.resale_year) := by omega
    simp [hnlt]
  have hpr : (App.profit inp).getD (inp.resale_year - 1) 0 = App.net_profit inp := by
    rw [App.profit_getD inp _ hk, hrev, hcc]
    rfl
  refine ⟨hcc, hpr, ?_⟩
  rw [App.roi_over_time_getD inp _ hk, hpr, hcc]
  rfl

/-- Witness for C10 in the `resale_year = 3` scenario: the last row reproduces
the summary scalars. -/
theorem C10_boundary_agreement_witness :
    (0 : ℕ) < 3 ∧
      (App.cumulative_costs ⟨10, 99, 50, 10000, 3⟩).getD 2 0 =
        App.total_cost ⟨10, 99, 50, 10000, 3⟩ :=
  ⟨by decide, (C10_boundary_agreement ⟨10, 99, 50, 10000, 3⟩ (by decide)).1⟩
